import Mathlib

/-!
Verification of the agent execution controller (`mod.ts`, given as
`src/unnamed/part_001`) of the kotto repository.

The development shallowly embeds the controller: JavaScript exceptions become
an explicit error type threaded through `Except`, the controller's mutable
fields (`history`, `retries`) become an explicit state record, and the
asynchronous calls (model client, capability invocation) become function
fields that may return an error.  Collaborators whose source is not under
`src/` (`errors.ts`, `prompts.ts`, `const.ts`, `llm.ts`) are modelled from the
spec, as marked on each such definition.
-/

namespace Kotto

/-- A JSON-compatible runtime value (argument or return value of a capability).
`undefined` is represented separately as `Option Value := none` where the
source distinguishes it. -/
inductive Value where
  | vnum (n : Int)
  | vstr (s : String)
  | vbool (b : Bool)
  | vnull
deriving DecidableEq, Repr

/-- Message role, the `"user" | "system"` union of the source. -/
inductive Role where
  | user
  | system
deriving DecidableEq, Repr

/-- Modelled from the spec: `errors.ts` is not under `src/`.  Per spec section 7
the taxonomy is four distinct Error subclasses: Feedback (carries a message),
Interrupt (carries `inner_error`), Internal (carries a message) and Exit
(carries the optional terminal `output`).  A thrown value matches at most one
`instanceof` test, which the embedding renders as constructor matching.
`typeError` embeds the JavaScript global `TypeError` thrown by `doAction`
(it is none of the four taxonomy classes), and `generic` embeds any other
unclassified exception. -/
inductive Err where
  | feedback (message : String)
  | interrupt (inner_error : Err)
  | internal (message : String)
  | exit (output : Option Value)
  | typeError (message : String)
  | generic (message : String)
deriving DecidableEq, Repr

/-- `err instanceof Feedback`. -/
def errIsFeedback : Err → Bool
  | .feedback _ => true
  | _ => false

/-- `err instanceof Internal`. -/
def errIsInternal : Err → Bool
  | .internal _ => true
  | _ => false

/-- The `.message` property of a thrown value (empty for the two classes whose
message the controller never reads). -/
def errMessage : Err → String
  | .feedback m => m
  | .internal m => m
  | .typeError m => m
  | .generic m => m
  | .interrupt _ => ""
  | .exit _ => ""

/-- An error is recoverable when `tick` converts it into a corrective prompt:
Feedback or any unclassified exception (the generic `else` branch of the
catch, which also receives `TypeError`).  Interrupt, Internal and Exit are
not recoverable. -/
def recoverable : Err → Bool
  | .feedback _ => true
  | .typeError _ => true
  | .generic _ => true
  | _ => false

/-- The `FunctionCall` type of `mod.ts`. -/
structure FunctionCall where
  name : String
  reasoning : Option String := none
  arguments : List Value
deriving DecidableEq, Repr

/-- The `Action` type of `mod.ts`: a call plus its recorded output.  `output`
is `none` while the action has not (successfully) run. -/
structure Action where
  call : FunctionCall
  output : Option Value := none
deriving DecidableEq, Repr

/-- One role-tagged message sent to the model client. -/
structure Msg where
  role : Role
  content : String
deriving DecidableEq, Repr

/-- A declaration node as passed to `scope.addNode` in `renderContext`. -/
structure Node where
  type : String
  fmt : String
  id : String
  ast_ty : String
deriving DecidableEq, Repr

/-- Modelled from the spec: `prompts.ts` (the Scope type) is not under `src/`.
Per spec section 4.2 a Scope accumulates declaration fragments; the embedding
keeps the accumulated nodes in order. -/
abbrev Scope := List Node

/-- `scope.addNode(node)`: appends an already-rendered declaration node. -/
def Scope.addNode (s : Scope) (n : Node) : Scope := s ++ [n]

/-- The `Template` rendering strategy: four operations, pure with respect to
controller state (spec section 4.3).  `parseResponse` may throw (the caller
discards the thrown value, hence `Except Unit`). -/
structure Template where
  renderContext : Scope → String
  renderOutput : Option Value → String
  renderError : Err → String
  parseResponse : String → Except Unit FunctionCall

/-- An export descriptor as registered by the `use` decorator: the property
key and the scope-contribution closure. -/
structure ExportDescriptor where
  property_key : String
  adder : Scope → Scope

/-- The model client: exchanges one ordered list of role-tagged messages for
one completion string; any backend failure surfaces as a thrown error.
Modelled from the spec: `llm.ts` is not under `src/` (spec section 6 gives
only this boundary contract). -/
abbrev LLMFn := List Msg → Except Err String

/-- The user-supplied agent: its export registry (`agent.exports`, an
insertion-ordered map, here an association list), its optional custom
template (`agent.template`), and its invokable properties.
`methods pk = some f` models `typeof agent[pk] === "function"` with `f` the
invocation `await agent[pk](...args)` (which may throw, and may return
`undefined`, i.e. `none`). -/
structure Agent where
  exports : List (String × ExportDescriptor) := []
  template : Option Template := none
  methods : String → Option (List Value → Except Err (Option Value))

/-- Modelled from the spec: `prompts.ts` is not under `src/`.  `newScope`
is the Scope returned by `prompts.newScope()`; declaration lookup
(`addFromId`) lives inside the registered adder closures and stays
abstract. -/
structure Prompts where
  newScope : Scope := []

/-- The `AgentControllerOpts` type: `allow_exit?: boolean`, with `none`
for an absent field. -/
structure AgentControllerOpts where
  allow_exit : Option Bool := none

/-- The immutable part of an `AgentController` as set up by its
constructor. -/
structure AgentController where
  agent : Agent
  prompts : Prompts
  exports : List (String × ExportDescriptor)
  llm : LLMFn
  template : Template
  opts : AgentControllerOpts

/-- The mutable fields of an `AgentController`: the append-only `history`
and the `retries` counter. -/
structure CtrlState where
  history : List Action
  retries : Nat
deriving DecidableEq, Repr

/-- The `max_retries = 5` instance field; no code in the repository ever
assigns it, so it is embedded as a constant. -/
def max_retries : Nat := 5

/- String helpers: transparent embeddings of the JavaScript string
operations the controller uses. -/

/-- Embeds `String.prototype.split` with a single-character separator:
splits a character list at every occurrence of `sep` (JavaScript semantics:
always at least one piece, empty pieces kept). -/
def splitChar (sep : Char) : List Char → List (List Char)
  | [] => [[]]
  | c :: cs =>
    if c = sep then [] :: splitChar sep cs
    else
      match splitChar sep cs with
      | [] => [[c]]
      | s :: ss => (c :: s) :: ss

/-- `s.split(sep)` for a one-character separator, on `String`. -/
def jsSplit (s : String) (sep : Char) : List String :=
  (splitChar sep s.data).map (fun l => String.mk l)

/-- Embeds `s.startsWith(pre)`. -/
def strStartsWith (s pre : String) : Bool :=
  pre.data.isPrefixOf s.data

/-- Embeds `hay.includes(needle)` (used only to state counterexamples about
prompt contents). -/
def strContainsStr (hay needle : String) : Bool :=
  go hay.data
where
  go : List Char → Bool
    | [] => needle.data.isEmpty
    | c :: t => needle.data.isPrefixOf (c :: t) || go t

/- The controller operations, embedded from `src/unnamed/part_001`. -/

/-- The `builtins.exit` declaration node added by `renderContext` when
`opts.allow_exit ?? true`. -/
def exitNode : Node :=
  { type := "ts", fmt := "builtins.exit", id := "builtins.exit", ast_ty := "fn_decl" }

/-- The scope built by `renderContext` (lines 176-192): a new scope from
`prompts`, each registered export's adder applied in insertion order, then
the `builtins.exit` node when `opts.allow_exit ?? true`. -/
def contextScope (c : AgentController) : Scope :=
  let scope := c.exports.foldl (fun sc d => d.2.adder sc) c.prompts.newScope
  if c.opts.allow_exit.getD true then scope.addNode exitNode else scope

/-- `AgentController.renderContext` (lines 176-194). -/
def renderContext (c : AgentController) : String :=
  c.template.renderContext (contextScope c)

/-- `AgentController.handleBuiltin` (lines 196-208): `name.split(".")[1]`
selects the builtin; `exit` throws `Exit` (payload from the first argument
when present), anything else throws `Internal`.  An absent index 1 is the
JavaScript `undefined`, which stringifies in the Internal message. -/
def handleBuiltin (action : Action) : Except Err Unit :=
  match (jsSplit action.call.name '.')[1]? with
  | some builtin =>
    if builtin = "exit" then
      match action.call.arguments with
      | [] => .error (.exit none)
      | v :: _ => .error (.exit (some v))
    else
      .error (.internal ("unknown builtin '" ++ builtin ++ "'"))
  | none => .error (.internal "unknown builtin 'undefined'")

/-- `AgentController.doAction` (lines 210-239): builtin names go to
`handleBuiltin`; otherwise the name is looked up in `agent.exports` and the
resolved property must be invokable, else a `TypeError`
`"<name> is not a function"` is thrown; on success the output is recorded on
the action and the action appended to history. -/
def doAction (c : AgentController) (st : CtrlState) (action : Action) :
    Except Err CtrlState :=
  if strStartsWith action.call.name "builtins." then
    (handleBuiltin action).map (fun _ => st)
  else
    match c.agent.exports.lookup action.call.name with
    | none => .error (.typeError (action.call.name ++ " is not a function"))
    | some export_descriptor =>
      match c.agent.methods export_descriptor.property_key with
      | none => .error (.typeError (action.call.name ++ " is not a function"))
      | some f =>
        match f action.call.arguments with
        | .error e => .error e
        | .ok output =>
          .ok { st with history := st.history ++ [{ action with output := output }] }

/-- The prompt chosen by `complete` (lines 295-302): the explicit prompt if
one was passed, else the initial context when history is empty, else the
rendering of the last history entry's output.  (The `none` arm of the inner
match is unreachable: history is non-empty there.) -/
def promptFor (c : AgentController) (st : CtrlState) (prompt? : Option String) :
    String :=
  match prompt? with
  | some p => p
  | none =>
    if st.history.length == 0 then renderContext c
    else
      match st.history.getLast? with
      | some last => c.template.renderOutput last.output
      | none => c.template.renderOutput none

/-- `AgentController.complete` (lines 294-321): choose the prompt, exchange
one message with the model, parse the completion (a parse failure becomes a
Feedback carrying the raw completion), then dispatch the parsed call. -/
def complete (c : AgentController) (st : CtrlState) (prompt? : Option String)
    (role : Role) : Except Err CtrlState :=
  match c.llm [{ role := role, content := promptFor c st prompt? }] with
  | .error e => .error e
  | .ok completion =>
    match c.template.parseResponse completion with
    | .error _ =>
      .error (.feedback ("could not extract JSON from your response: " ++ completion))
    | .ok response => doAction c st { call := response, output := none }

/-- The tick result: the three object shapes `tick` constructs.  An `exited`
object carries the key `output`; a `pendingWithPrompt` object carries the
keys `prompt` and `role`; a `pendingNoPrompt` object (the success result
`{role: "user"}`) carries only `role`. -/
inductive TickRet where
  | exited (output : Option Value)
  | pendingWithPrompt (role : Role) (prompt : String)
  | pendingNoPrompt (role : Role)
deriving DecidableEq, Repr

/-- `isExited` (lines 117-119): the JavaScript test `"output" in x`, true
exactly of the object shapes that carry an `output` key. -/
def isExited (x : TickRet) : Bool :=
  match x with
  | .exited _ => true
  | _ => false

/-- `isPending` (lines 126-128): the JavaScript test `"prompt" in x`, true
exactly of the object shapes that carry a `prompt` key (so false on
`{role: "user"}`, whose optional `prompt` field is absent). -/
def isPending (x : TickRet) : Bool :=
  match x with
  | .pendingWithPrompt _ _ => true
  | _ => false

/-- The `prompt` field read when a tick result is destructured as a
`Pending` (absent key gives `undefined`). -/
def TickRet.promptField : TickRet → Option String
  | .pendingWithPrompt _ p => some p
  | _ => none

/-- The `role` field read when a tick result is destructured as a
`Pending`.  An `exited` value is never destructured (the loop returns
first); its arm is junk. -/
def TickRet.roleField : TickRet → Role
  | .pendingWithPrompt r _ => r
  | .pendingNoPrompt r => r
  | .exited _ => .user

/-- `AgentController.tick` (lines 241-292).  On success of `complete` the
retry counter resets and `{role: "user"}` is returned.  On a caught error,
budget exhaustion is checked first (`retries >= max_retries` rethrows the
error unmodified); then Feedback converts to a system prompt carrying its
message, Interrupt rethrows its `inner_error`, Internal rethrows, Exit
returns the Exited value, and anything else converts to a system prompt
rendered by the template; both converting branches increment `retries`. -/
def tick (c : AgentController) (st : CtrlState) (prompt? : Option String)
    (role : Role) : Except Err (CtrlState × TickRet) :=
  match complete c st prompt? role with
  | .ok st' => .ok ({ st' with retries := 0 }, .pendingNoPrompt .user)
  | .error err =>
    if max_retries ≤ st.retries then
      .error err
    else
      match err with
      | .feedback msg =>
        .ok ({ st with retries := st.retries + 1 }, .pendingWithPrompt .system msg)
      | .interrupt inner => .error inner
      | .internal m => .error (.internal m)
      | .exit output => .ok (st, .exited output)
      | e =>
        .ok ({ st with retries := st.retries + 1 },
          .pendingWithPrompt .system (c.template.renderError e))

/-- `AgentController.runToCompletion` (lines 323-331), with explicit fuel
for the unbounded loop: drive `tick`, feeding each Pending result back as
the next input (the very first call passes no input, i.e. the default
`{role: "user"}`), until a result satisfying `isExited` is returned; then
return its output.  `ok none` means the fuel ran out with the loop still
going (no terminal behavior of the source corresponds to it). -/
def runToCompletion (c : AgentController) :
    Nat → CtrlState → Option String → Role → Except Err (Option (Option Value))
  | 0, _, _, _ => .ok none
  | n + 1, st, prompt?, role =>
    match tick c st prompt? role with
    | .error e => .error e
    | .ok (st', t) =>
      if isExited t then
        .ok (some (match t with | .exited o => o | _ => none))
      else
        runToCompletion c n st' t.promptField t.roleField

/-- Iterated `tick`, exposing the result of the `(k+1)`-th tick of the same
loop `runToCompletion` drives: pendings are fed back, an `exited` result or
a thrown error stops the iteration early. -/
def tickIter (c : AgentController) :
    Nat → CtrlState → Option String → Role → Except Err (CtrlState × TickRet)
  | 0, st, prompt?, role => tick c st prompt? role
  | n + 1, st, prompt?, role =>
    match tick c st prompt? role with
    | .error e => .error e
    | .ok (st', .exited o) => .ok (st', .exited o)
    | .ok (st', t) => tickIter c n st' t.promptField t.roleField

/-- Modelled from the spec: `const.ts` (the default `Naive` template) is not
under `src/`.  Spec section 4.3 fixes only the operations' shapes; every
claim below holds for an arbitrary template and every fixture supplies its
own, so the bodies here are simple conforming stand-ins that no theorem
depends on. -/
def Naive : Template where
  renderContext := fun scope => String.intercalate "\n" (scope.map (fun n => n.fmt))
  renderOutput := fun out =>
    match out with
    | some (.vnum n) => toString n
    | some (.vstr s) => s
    | some (.vbool b) => toString b
    | some .vnull => "null"
    | none => "null"
  renderError := fun e => "error: " ++ errMessage e
  parseResponse := fun _ => .error ()

/-- The `AgentController` constructor (lines 157-174): exports and template
come from the agent, with the `Naive` template as the default. -/
def mkController (agent : Agent) (prompts : Prompts) (model : LLMFn)
    (opts : AgentControllerOpts := {}) : AgentController :=
  { agent := agent
    prompts := prompts
    exports := agent.exports
    llm := model
    template := agent.template.getD Naive
    opts := opts }

/-- The `RunFlags` type (lines 386-394): agent, prompts, OpenAI key, and the
`allow_exit` flag documented as "Whether to expose `builtins.exit` to the
agent". -/
structure RunFlags where
  agent : Agent
  prompts : Prompts
  openai_key : String
  allow_exit : Option Bool := none

/-- The controller constructed by `run` (lines 396-402): the model client is
built from the key (`new llm.OpenAIChatCompletion(opts.openai_key)`, an
external collaborator represented by `mkModel`), and the controller is
constructed as `new AgentController(opts.agent, await opts.prompts, model)`
-- with no options argument, so constructor `opts` defaults to `{}`. -/
def runController (rf : RunFlags) (mkModel : String → LLMFn) : AgentController :=
  mkController rf.agent rf.prompts (mkModel rf.openai_key)

/-- The `run` entry point (lines 396-402): construct the controller and
drive it to completion. -/
def run (rf : RunFlags) (mkModel : String → LLMFn) (fuel : Nat) :
    Except Err (Option (Option Value)) :=
  runToCompletion (runController rf mkModel) fuel { history := [], retries := 0 } none .user

/-- The prompt with which a recoverable error re-enters the loop: the
Feedback message itself, or the template's rendering of any other
(unclassified) error. -/
def recoveryPrompt (c : AgentController) : Err → String
  | .feedback m => m
  | e => c.template.renderError e

/- Helper lemmas about the string operations. -/

lemma splitChar_no_sep (sep : Char) (cs : List Char) (h : sep ∉ cs) :
    splitChar sep cs = [cs] := by
  induction cs with
  | nil => rfl
  | cons c t ih =>
    have hc : ¬ c = sep := by
      intro hh
      exact h (by simp [hh])
    have ht : sep ∉ t := by
      intro hm
      exact h (List.mem_cons_of_mem _ hm)
    simp [splitChar, hc, ih ht]

lemma splitChar_seg (sep : Char) (cs ds : List Char) (h : sep ∉ cs) :
    splitChar sep (cs ++ sep :: ds) = cs :: splitChar sep ds := by
  induction cs with
  | nil => simp [splitChar]
  | cons c t ih =>
    have hc : ¬ c = sep := by
      intro hh
      exact h (by simp [hh])
    have ht : sep ∉ t := by
      intro hm
      exact h (List.mem_cons_of_mem _ hm)
    show splitChar sep (c :: (t ++ sep :: ds)) = (c :: t) :: splitChar sep ds
    simp only [splitChar, if_neg hc, ih ht]

lemma isPrefixOf_append_self (xs ys : List Char) :
    xs.isPrefixOf (xs ++ ys) = true := by
  induction xs with
  | nil => simp [List.isPrefixOf]
  | cons c t ih => simp [List.isPrefixOf, ih]

lemma strStartsWith_builtins (x : String) :
    strStartsWith ("builtins." ++ x) "builtins." = true := by
  show ("builtins.").data.isPrefixOf (("builtins." ++ x).data) = true
  have h : ("builtins." ++ x).data = "builtins.".data ++ x.data := rfl
  rw [h]
  exact isPrefixOf_append_self _ _

lemma jsSplit_builtins (x : String) (h : ('.' : Char) ∉ x.data) :
    jsSplit ("builtins." ++ x) '.' = ["builtins", x] := by
  have h1 : ("builtins." ++ x).data = "builtins".data ++ '.' :: x.data := rfl
  unfold jsSplit
  rw [h1, splitChar_seg '.' _ _ (by decide), splitChar_no_sep '.' x.data h]
  rfl

/- Inversion lemmas: what a successful dispatch implies. -/

lemma handleBuiltin_ne_ok (a : Action) (u : Unit) : handleBuiltin a ≠ .ok u := by
  cases h : (jsSplit a.call.name '.')[1]? with
  | none => simp [handleBuiltin, h]
  | some b =>
    by_cases hb : b = "exit"
    · cases ha : a.call.arguments with
      | nil => simp [handleBuiltin, h, hb, ha]
      | cons v t => simp [handleBuiltin, h, hb, ha]
    · simp [handleBuiltin, h, hb]

lemma doAction_ok {c : AgentController} {st : CtrlState} {a : Action}
    {st' : CtrlState} (h : doAction c st a = .ok st') :
    ∃ out, st' = { st with history := st.history ++ [{ call := a.call, output := out }] } := by
  unfold doAction at h
  split at h
  · cases hh : handleBuiltin a with
    | error e => simp [hh, Except.map] at h
    | ok u => exact absurd hh (handleBuiltin_ne_ok a u)
  · split at h
    · exact Except.noConfusion h
    · split at h
      · exact Except.noConfusion h
      · split at h
        · exact Except.noConfusion h
        · cases h
          exact ⟨_, rfl⟩

lemma complete_ok {c : AgentController} {st : CtrlState} {p? : Option String}
    {r : Role} {st' : CtrlState} (h : complete c st p? r = .ok st') :
    ∃ a, st'.history = st.history ++ [a] ∧ st'.retries = st.retries := by
  unfold complete at h
  split at h
  · exact Except.noConfusion h
  · split at h
    · exact Except.noConfusion h
    · obtain ⟨out, ho⟩ := doAction_ok h
      exact ⟨_, by rw [ho], by rw [ho]⟩

/- Case lemmas for `tick`. -/

lemma tick_of_complete_ok {c : AgentController} {st : CtrlState}
    {p? : Option String} {r : Role} {st' : CtrlState}
    (hc : complete c st p? r = .ok st') :
    tick c st p? r = .ok ({ st' with retries := 0 }, .pendingNoPrompt .user) := by
  simp only [tick, hc]

lemma tick_exhausted {c : AgentController} {st : CtrlState} {p? : Option String}
    {r : Role} {e : Err} (hr : max_retries ≤ st.retries)
    (hc : complete c st p? r = .error e) : tick c st p? r = .error e := by
  simp only [tick, hc, if_pos hr]

lemma tick_recoverable_step {c : AgentController} {st : CtrlState}
    {p? : Option String} {r : Role} {e : Err} (he : recoverable e = true)
    (hr : st.retries < max_retries) (hc : complete c st p? r = .error e) :
    tick c st p? r = .ok ({ st with retries := st.retries + 1 },
      .pendingWithPrompt .system (recoveryPrompt c e)) := by
  simp only [tick, hc, if_neg (show ¬ max_retries ≤ st.retries by omega)]
  cases e with
  | feedback m => rfl
  | typeError m => rfl
  | generic m => rfl
  | interrupt i => simp [recoverable] at he
  | internal m => simp [recoverable] at he
  | exit o => simp [recoverable] at he

lemma tick_interrupt {c : AgentController} {st : CtrlState} {p? : Option String}
    {r : Role} {inner : Err} (hr : st.retries < max_retries)
    (hc : complete c st p? r = .error (.interrupt inner)) :
    tick c st p? r = .error inner := by
  simp only [tick, hc, if_neg (show ¬ max_retries ≤ st.retries by omega)]

lemma tick_internal {c : AgentController} {st : CtrlState} {p? : Option String}
    {r : Role} {m : String} (hc : complete c st p? r = .error (.internal m)) :
    tick c st p? r = .error (.internal m) := by
  by_cases hr : max_retries ≤ st.retries
  · simp only [tick, hc, if_pos hr]
  · simp only [tick, hc, if_neg hr]

lemma tick_exit {c : AgentController} {st : CtrlState} {p? : Option String}
    {r : Role} {out : Option Value} (hr : st.retries < max_retries)
    (hc : complete c st p? r = .error (.exit out)) :
    tick c st p? r = .ok (st, .exited out) := by
  simp only [tick, hc, if_neg (show ¬ max_retries ≤ st.retries by omega)]

/- Iteration lemmas: a loop fed only recoverable errors. -/

lemma tickIter_recoverable_ok (c : AgentController)
    (E : CtrlState → Option String → Role → Err)
    (hrec : ∀ st p? r, recoverable (E st p? r) = true)
    (hcomp : ∀ st p? r, complete c st p? r = .error (E st p? r)) :
    ∀ (k j : Nat) (H : List Action) (p? : Option String) (r : Role),
      j + k < max_retries →
      ∃ pr, tickIter c k ⟨H, j⟩ p? r =
        .ok (⟨H, j + k + 1⟩, .pendingWithPrompt .system pr) := by
  intro k
  induction k with
  | zero =>
    intro j H p? r hj
    refine ⟨recoveryPrompt c (E ⟨H, j⟩ p? r), ?_⟩
    have hstep := tick_recoverable_step (hrec ⟨H, j⟩ p? r)
      (show (⟨H, j⟩ : CtrlState).retries < max_retries by simpa using by omega)
      (hcomp ⟨H, j⟩ p? r)
    simpa [tickIter] using hstep
  | succ n ih =>
    intro j H p? r hj
    have hstep := tick_recoverable_step (hrec ⟨H, j⟩ p? r)
      (show (⟨H, j⟩ : CtrlState).retries < max_retries by simpa using by omega)
      (hcomp ⟨H, j⟩ p? r)
    obtain ⟨pr, hpr⟩ :=
      ih (j + 1) H (some (recoveryPrompt c (E ⟨H, j⟩ p? r))) .system (by omega)
    refine ⟨pr, ?_⟩
    unfold tickIter
    rw [hstep]
    show tickIter c n ⟨H, j + 1⟩ (some (recoveryPrompt c (E ⟨H, j⟩ p? r))) .system = _
    rw [hpr]
    have harith : j + 1 + n + 1 = j + (n + 1) + 1 := by omega
    rw [harith]

lemma tickIter_recoverable_exhaust (c : AgentController)
    (E : CtrlState → Option String → Role → Err)
    (hrec : ∀ st p? r, recoverable (E st p? r) = true)
    (hcomp : ∀ st p? r, complete c st p? r = .error (E st p? r)) :
    ∀ (k j : Nat) (H : List Action) (p? : Option String) (r : Role),
      j + k = max_retries →
      ∃ pk rk, tickIter c k ⟨H, j⟩ p? r = .error (E ⟨H, max_retries⟩ pk rk) := by
  intro k
  induction k with
  | zero =>
    intro j H p? r hj
    have hjv : j = max_retries := by omega
    subst hjv
    refine ⟨p?, r, ?_⟩
    have h5 := tick_exhausted
      (show max_retries ≤ (⟨H, max_retries⟩ : CtrlState).retries by simp)
      (hcomp ⟨H, max_retries⟩ p? r)
    simpa [tickIter] using h5
  | succ n ih =>
    intro j H p? r hj
    have hstep := tick_recoverable_step (hrec ⟨H, j⟩ p? r)
      (show (⟨H, j⟩ : CtrlState).retries < max_retries by simpa using by omega)
      (hcomp ⟨H, j⟩ p? r)
    obtain ⟨pk, rk, hk⟩ :=
      ih (j + 1) H (some (recoveryPrompt c (E ⟨H, j⟩ p? r))) .system (by omega)
    refine ⟨pk, rk, ?_⟩
    unfold tickIter
    rw [hstep]
    exact hk

/- Auxiliary dispatch lemmas reused by several claims. -/

lemma doAction_builtin {c : AgentController} {st : CtrlState} (a : Action)
    (hb : strStartsWith a.call.name "builtins." = true) :
    doAction c st a = (handleBuiltin a).map (fun _ => st) := by
  unfold doAction
  rw [if_pos hb]

lemma handleBuiltin_unknown {x : String} (a : Action)
    (hname : a.call.name = "builtins." ++ x)
    (hx : x ≠ "exit") (hdot : ('.' : Char) ∉ x.data) :
    handleBuiltin a = .error (.internal ("unknown builtin '" ++ x ++ "'")) := by
  unfold handleBuiltin
  rw [hname, jsSplit_builtins x hdot]
  simp [hx]

lemma doAction_unregistered {c : AgentController} {st : CtrlState} (a : Action)
    (hn : strStartsWith a.call.name "builtins." = false)
    (hlk : c.agent.exports.lookup a.call.name = none ∨
      ∃ d, c.agent.exports.lookup a.call.name = some d ∧
        c.agent.methods d.property_key = none) :
    doAction c st a = .error (.typeError (a.call.name ++ " is not a function")) := by
  unfold doAction
  rw [if_neg (by simp [hn])]
  rcases hlk with h1 | ⟨d, h1, h2⟩
  · simp only [h1]
  · simp only [h1, h2]

/- Test fixtures: one concrete agent whose behaviors exercise every branch
of the dispatcher, plus one controller per scripted model client. -/

/-- Fixture template: recognizable renderings and a scripted response
parser. -/
def tmplFix : Template where
  renderContext := fun _ => "ctx"
  renderOutput := fun _ => "out"
  renderError := fun e => "corrective: " ++ errMessage e
  parseResponse := fun s =>
    if s = "CALL_ADD" then
      .ok { name := "add", reasoning := some "adding", arguments := [.vnum 2, .vnum 3] }
    else if s = "CALL_FOO" then .ok { name := "foo", arguments := [] }
    else if s = "CALL_JOB" then .ok { name := "job", arguments := [] }
    else if s = "EXIT_BYE" then
      .ok { name := "builtins.exit", arguments := [.vstr "bye"] }
    else if s = "BUILTIN_QUIT" then .ok { name := "builtins.quit", arguments := [] }
    else .error ()

/-- Fixture agent: capability `add` returns the sum of its two numeric
arguments, capability `job` throws an Interrupt wrapping a generic error. -/
def agFix : Agent where
  exports := [("add", { property_key := "add", adder := fun sc => sc }),
    ("job", { property_key := "job", adder := fun sc => sc })]
  template := some tmplFix
  methods := fun pk =>
    if pk = "add" then
      some (fun args =>
        match args with
        | [.vnum a, .vnum b] => .ok (some (.vnum (a + b)))
        | _ => .error (.generic "bad args"))
    else if pk = "job" then
      some (fun _ => .error (.interrupt (.generic "boom")))
    else none

/-- Fixture controller whose model replies with a well-formed `add` call. -/
def cAdd : AgentController := mkController agFix {} (fun _ => .ok "CALL_ADD")

/-- Fixture controller whose model replies with unparseable text. -/
def cGarbage : AgentController := mkController agFix {} (fun _ => .ok "garbage")

/-- Fixture controller whose model calls the unregistered name `foo`. -/
def cFoo : AgentController := mkController agFix {} (fun _ => .ok "CALL_FOO")

/-- Fixture controller whose model calls the Interrupt-throwing `job`. -/
def cJob : AgentController := mkController agFix {} (fun _ => .ok "CALL_JOB")

/-- Fixture controller whose model calls `builtins.exit` with one
argument. -/
def cExit : AgentController := mkController agFix {} (fun _ => .ok "EXIT_BYE")

/-- Fixture controller whose model calls the unknown builtin
`builtins.quit`. -/
def cQuit : AgentController := mkController agFix {} (fun _ => .ok "BUILTIN_QUIT")

/-- The error `complete cGarbage` throws on every input. -/
def EW1 : CtrlState → Option String → Role → Err :=
  fun _ _ _ => .feedback "could not extract JSON from your response: garbage"

/- The claims. -/

/-- C1: for a loop in which `complete` keeps throwing recoverable errors
(Feedback or an unclassified exception), each of the first `max_retries`
ticks converts the error into a new system-role Pending prompt with
`retries` incremented to `k+1` (so every run of `k < max_retries`
consecutive recoverable errors keeps the loop going), while the
`(max_retries+1)`-th consecutive recoverable error is re-raised unmodified
out of `tick` (it is exactly the error `complete` threw on that tick). -/
theorem c1_consecutive_recoverable_errors (c : AgentController)
    (E : CtrlState → Option String → Role → Err)
    (hrec : ∀ st p? r, recoverable (E st p? r) = true)
    (hcomp : ∀ st p? r, complete c st p? r = .error (E st p? r))
    (H : List Action) (p? : Option String) (r : Role) :
    (∀ k, k < max_retries →
      ∃ pr, tickIter c k ⟨H, 0⟩ p? r =
        .ok (⟨H, k + 1⟩, .pendingWithPrompt .system pr))
    ∧ (∃ pk rk, tickIter c max_retries ⟨H, 0⟩ p? r =
        .error (E ⟨H, max_retries⟩ pk rk)) := by
  constructor
  · intro k hk
    have h := tickIter_recoverable_ok c E hrec hcomp k 0 H p? r (by omega)
    simpa using h
  · exact tickIter_recoverable_exhaust c E hrec hcomp max_retries 0 H p? r (by omega)

/-- Witness for C1 at the fixture whose model always replies with
unparseable text. -/
theorem c1_consecutive_recoverable_errors_witness :
    (∃ pr, tickIter cGarbage 0 ⟨[], 0⟩ none .user =
      .ok (⟨[], 1⟩, .pendingWithPrompt .system pr))
    ∧ (∃ pk rk, tickIter cGarbage max_retries ⟨[], 0⟩ none .user =
        .error (EW1 ⟨[], max_retries⟩ pk rk)) := by
  obtain ⟨h1, h2⟩ := c1_consecutive_recoverable_errors cGarbage EW1
    (fun _ _ _ => rfl) (fun _ _ _ => rfl) [] none .user
  exact ⟨h1 0 (by decide), h2⟩

/-- C2: whenever `complete` succeeds, `tick` resets the retry counter to 0,
the history has grown by exactly the one action whose output was recorded,
and the returned value is the Pending `{role: "user"}` with no prompt
text. -/
theorem c2_successful_tick (c : AgentController) (st : CtrlState)
    (p? : Option String) (r : Role) (st' : CtrlState)
    (hc : complete c st p? r = .ok st') :
    tick c st p? r = .ok ({ st' with retries := 0 }, .pendingNoPrompt .user)
    ∧ st'.history.length = st.history.length + 1
    ∧ ∃ a, st'.history = st.history ++ [a] := by
  obtain ⟨a, ha, _⟩ := complete_ok hc
  exact ⟨tick_of_complete_ok hc, by rw [ha]; simp, ⟨a, ha⟩⟩

/-- Witness for C2: the fixture `add` call succeeds with output 5; retries
(3 on entry) resets to 0 and history grows from empty to one action. -/
theorem c2_successful_tick_witness :
    tick cAdd ⟨[], 3⟩ (some "p") .user =
      .ok (⟨[⟨⟨"add", some "adding", [.vnum 2, .vnum 3]⟩, some (.vnum 5)⟩], 0⟩,
        .pendingNoPrompt .user)
    ∧ ([⟨⟨"add", some "adding", [.vnum 2, .vnum 3]⟩, some (.vnum 5)⟩] :
        List Action).length = ([] : List Action).length + 1
    ∧ ∃ a, [⟨⟨"add", some "adding", [.vnum 2, .vnum 3]⟩, some (.vnum 5)⟩] =
        ([] : List Action) ++ [a] := by
  exact c2_successful_tick cAdd ⟨[], 3⟩ (some "p") .user
    ⟨[⟨⟨"add", some "adding", [.vnum 2, .vnum 3]⟩, some (.vnum 5)⟩], 3⟩ rfl

/-- C3 (counterexample): dispatching the unregistered name `foo` raises a
plain `TypeError`, which is not Feedback-classified, and `tick` returns as
prompt the template's `renderError` rendering, which differs from the
error's own message -- refuting the claim that the error is
Feedback-classified and that the prompt is `err.message`. -/
theorem c3_unregistered_counterexample :
    doAction cFoo ⟨[], 0⟩ ⟨⟨"foo", none, []⟩, none⟩ =
      .error (.typeError "foo is not a function")
    ∧ errIsFeedback (.typeError "foo is not a function") = false
    ∧ tick cFoo ⟨[], 0⟩ (some "p") .user =
        .ok (⟨[], 1⟩, .pendingWithPrompt .system "corrective: foo is not a function")
    ∧ "corrective: foo is not a function" ≠ "foo is not a function" := by
  exact ⟨rfl, rfl, rfl, by decide⟩

/-- C3 (amended): dispatching a call whose name is not registered (or whose
resolved target is not invokable) raises an unclassified `TypeError` with
message `<name> is not a function` -- never Internal and never Feedback --
and, while the retry budget remains, `tick` returns
`{role: "system", prompt: renderError(err)}` with `retries` incremented. -/
theorem c3_unregistered_amended (c : AgentController) (st : CtrlState)
    (name : String) (rsn : Option String) (args : List Value) (o : Option Value)
    (p? : Option String) (r : Role) (m : String)
    (hn : strStartsWith name "builtins." = false)
    (hlk : c.agent.exports.lookup name = none ∨
      ∃ d, c.agent.exports.lookup name = some d ∧
        c.agent.methods d.property_key = none)
    (hr : st.retries < max_retries)
    (hc : complete c st p? r = .error (.typeError m)) :
    doAction c st ⟨⟨name, rsn, args⟩, o⟩ =
      .error (.typeError (name ++ " is not a function"))
    ∧ errIsFeedback (.typeError m) = false
    ∧ errIsInternal (.typeError m) = false
    ∧ tick c st p? r = .ok ({ st with retries := st.retries + 1 },
        .pendingWithPrompt .system (c.template.renderError (.typeError m))) := by
  refine ⟨doAction_unregistered _ hn hlk, rfl, rfl, ?_⟩
  exact tick_recoverable_step (by rfl) hr hc

/-- Witness for C3 (amended) at the fixture calling unregistered `foo`. -/
theorem c3_unregistered_amended_witness :
    doAction cFoo ⟨[], 2⟩ ⟨⟨"foo", some "why", [.vnum 1]⟩, none⟩ =
      .error (.typeError "foo is not a function")
    ∧ errIsFeedback (.typeError "foo is not a function") = false
    ∧ errIsInternal (.typeError "foo is not a function") = false
    ∧ tick cFoo ⟨[], 2⟩ (some "q") .user = .ok (⟨[], 3⟩,
        .pendingWithPrompt .system
          (cFoo.template.renderError (.typeError "foo is not a function"))) := by
  exact c3_unregistered_amended cFoo ⟨[], 2⟩ "foo" (some "why") [.vnum 1] none
    (some "q") .user "foo is not a function" rfl (Or.inl rfl) (by decide) rfl

/-- C4 (counterexample): at a tick entered with `retries = max_retries`,
dispatching `builtins.exit` with one argument does not make `tick` return
an Exited value -- the caught Exit is re-raised, refuting the claim's
"for every tick ... tick returns this Exited value rather than raising". -/
theorem c4_exit_counterexample :
    tick cExit ⟨[], 5⟩ none .user = .error (.exit (some (.vstr "bye"))) := rfl

/-- C4 (amended): dispatching `builtins.exit` yields `Exit` with no payload
for zero arguments and with payload `v` for one argument, and a tick
entered with `retries < max_retries` in which `complete` throws `Exit`
returns the Exited value rather than raising; entered with
`retries ≥ max_retries` the Exit would be re-raised instead. -/
theorem c4_exit_amended (c : AgentController) (st st2 : CtrlState)
    (p? : Option String) (r : Role) (out : Option Value) (v : Value)
    (rsn : Option String) (o : Option Value)
    (hr : st.retries < max_retries)
    (hc : complete c st p? r = .error (.exit out)) :
    tick c st p? r = .ok (st, .exited out)
    ∧ handleBuiltin ⟨⟨"builtins.exit", rsn, []⟩, o⟩ = .error (.exit none)
    ∧ handleBuiltin ⟨⟨"builtins.exit", rsn, [v]⟩, o⟩ = .error (.exit (some v))
    ∧ doAction c st2 ⟨⟨"builtins.exit", rsn, []⟩, o⟩ = .error (.exit none)
    ∧ doAction c st2 ⟨⟨"builtins.exit", rsn, [v]⟩, o⟩ = .error (.exit (some v)) := by
  exact ⟨tick_exit hr hc, rfl, rfl, rfl, rfl⟩

/-- Witness for C4 (amended) at the fixture calling `builtins.exit` with
argument "bye", entered within budget. -/
theorem c4_exit_amended_witness :
    tick cExit ⟨[], 4⟩ none .user = .ok (⟨[], 4⟩, .exited (some (.vstr "bye")))
    ∧ handleBuiltin ⟨⟨"builtins.exit", none, []⟩, none⟩ = .error (.exit none)
    ∧ handleBuiltin ⟨⟨"builtins.exit", none, [.vnum 7]⟩, none⟩ =
        .error (.exit (some (.vnum 7)))
    ∧ doAction cExit ⟨[], 0⟩ ⟨⟨"builtins.exit", none, []⟩, none⟩ =
        .error (.exit none)
    ∧ doAction cExit ⟨[], 0⟩ ⟨⟨"builtins.exit", none, [.vnum 7]⟩, none⟩ =
        .error (.exit (some (.vnum 7))) := by
  exact c4_exit_amended cExit ⟨[], 4⟩ ⟨[], 0⟩ none .user (some (.vstr "bye"))
    (.vnum 7) none none (by decide) rfl

/-- C5: dispatching `builtins.<x>` for a (dot-free) builtin name `x`
distinct from `exit` raises an Internal error, and a tick whose `complete`
throws an Internal error re-raises it to the caller for every value of
`retries` (both the exhausted and the non-exhausted branch rethrow it),
never converting it into a corrective Pending. -/
theorem c5_unknown_builtin (c : AgentController) (st st2 : CtrlState)
    (p? : Option String) (r : Role) (x : String) (rsn : Option String)
    (args : List Value) (o : Option Value) (m : String)
    (hx : x ≠ "exit") (hdot : ('.' : Char) ∉ x.data)
    (hc : complete c st p? r = .error (.internal m)) :
    handleBuiltin ⟨⟨"builtins." ++ x, rsn, args⟩, o⟩ =
      .error (.internal ("unknown builtin '" ++ x ++ "'"))
    ∧ doAction c st2 ⟨⟨"builtins." ++ x, rsn, args⟩, o⟩ =
      .error (.internal ("unknown builtin '" ++ x ++ "'"))
    ∧ tick c st p? r = .error (.internal m) := by
  have hhb := @handleBuiltin_unknown x ⟨⟨"builtins." ++ x, rsn, args⟩, o⟩
    rfl hx hdot
  refine ⟨hhb, ?_, tick_internal hc⟩
  rw [doAction_builtin _ (strStartsWith_builtins x), hhb]
  rfl

/-- Witness for C5 at the fixture calling `builtins.quit` with
`retries = 0`. -/
theorem c5_unknown_builtin_witness :
    handleBuiltin ⟨⟨"builtins." ++ "quit", none, []⟩, none⟩ =
      .error (.internal ("unknown builtin '" ++ "quit" ++ "'"))
    ∧ doAction cQuit ⟨[], 0⟩ ⟨⟨"builtins." ++ "quit", none, []⟩, none⟩ =
      .error (.internal ("unknown builtin '" ++ "quit" ++ "'"))
    ∧ tick cQuit ⟨[], 0⟩ none .user = .error (.internal "unknown builtin 'quit'") := by
  exact c5_unknown_builtin cQuit ⟨[], 0⟩ ⟨[], 0⟩ none .user "quit" none [] none
    "unknown builtin 'quit'" (by decide) (by decide) rfl

/-- C6 (counterexample): on an unparseable completion the corrective prompt
is exactly the Feedback message carrying the raw completion; it mentions
none of the reply-shape keywords (`name`, `reasoning`, `arguments`), so it
does not restate the required reply shape as claimed. -/
theorem c6_parse_counterexample :
    tick cGarbage ⟨[], 0⟩ (some "p") .user = .ok (⟨[], 1⟩,
      .pendingWithPrompt .system "could not extract JSON from your response: garbage")
    ∧ strContainsStr "could not extract JSON from your response: garbage" "name" = false
    ∧ strContainsStr "could not extract JSON from your response: garbage" "arguments" = false
    ∧ strContainsStr "could not extract JSON from your response: garbage" "reasoning" = false := by
  exact ⟨rfl, by decide, by decide, by decide⟩

/-- C6 (amended): when the completion cannot be parsed, the failure is
wrapped as a Feedback whose message is
`could not extract JSON from your response: <completion>`, and (while the
retry budget remains) `tick` returns `{role: "system"}` with exactly that
message as prompt -- diagnosing the failure and echoing the offending
completion, but not restating the required reply shape -- and `retries`
increases by exactly 1. -/
theorem c6_parse_amended (c : AgentController) (st : CtrlState)
    (prompt : String) (r : Role) (completion : String)
    (hr : st.retries < max_retries)
    (hllm : c.llm [⟨r, prompt⟩] = .ok completion)
    (hparse : c.template.parseResponse completion = .error ()) :
    tick c st (some prompt) r = .ok ({ st with retries := st.retries + 1 },
      .pendingWithPrompt .system
        ("could not extract JSON from your response: " ++ completion)) := by
  have hc : complete c st (some prompt) r =
      .error (.feedback ("could not extract JSON from your response: " ++ completion)) := by
    simp only [complete, promptFor, hllm, hparse]
  exact tick_recoverable_step (by rfl) hr hc

/-- Witness for C6 (amended) at the unparseable-reply fixture. -/
theorem c6_parse_amended_witness :
    tick cGarbage ⟨[], 2⟩ (some "q") .user = .ok (⟨[], 3⟩,
      .pendingWithPrompt .system
        ("could not extract JSON from your response: " ++ "garbage")) := by
  exact c6_parse_amended cGarbage ⟨[], 2⟩ "q" .user "garbage" (by decide) rfl rfl

/-- C7 (counterexample): an Interrupt caught at a tick entered with
`retries = max_retries` is re-raised whole, not unwrapped to its
`inner_error` -- refuting the claim's "for every tick in which an
Interrupt error is caught, tick unwraps it and re-raises the inner
application error". -/
theorem c7_interrupt_counterexample :
    tick cJob ⟨[], 5⟩ (some "p") .user = .error (.interrupt (.generic "boom"))
    ∧ Err.interrupt (.generic "boom") ≠ Err.generic "boom" := by
  exact ⟨rfl, by decide⟩

/-- C7 (amended): a caught Interrupt is never retried and never converted
into a Pending: with `retries < max_retries` it is unwrapped and its
`inner_error` re-raised; with `retries ≥ max_retries` the Interrupt itself
is re-raised unmodified. -/
theorem c7_interrupt_amended (c : AgentController) (st : CtrlState)
    (p? : Option String) (r : Role) (inner : Err)
    (hc : complete c st p? r = .error (.interrupt inner)) :
    (st.retries < max_retries → tick c st p? r = .error inner)
    ∧ (max_retries ≤ st.retries → tick c st p? r = .error (.interrupt inner)) :=
  ⟨fun hr => tick_interrupt hr hc, fun hr => tick_exhausted hr hc⟩

/-- Witness for C7 (amended): the fixture Interrupt at `retries = 0` is
unwrapped to its inner generic error. -/
theorem c7_interrupt_amended_witness :
    tick cJob ⟨[], 0⟩ (some "p") .user = .error (.generic "boom") := by
  exact (c7_interrupt_amended cJob ⟨[], 0⟩ (some "p") .user (.generic "boom")
    rfl).1 (by decide)

/-- C8: the success-path tick result `{role: "user"}` carries no `prompt`
key, so the shape-based discriminator `isPending` (the test
`"prompt" in x`) is false on it, and `isExited` is false as well: the
value returned by a successful tick satisfies neither discriminator,
contradicting the claim (and the spec's tagged-variant design note) that
exactly one of the two holds with `isPending` true there. -/
theorem c8_discriminators_bug :
    tick cAdd ⟨[], 0⟩ (some "p") .user =
      .ok (⟨[⟨⟨"add", some "adding", [.vnum 2, .vnum 3]⟩, some (.vnum 5)⟩], 0⟩,
        .pendingNoPrompt .user)
    ∧ isPending (.pendingNoPrompt .user) = false
    ∧ isExited (.pendingNoPrompt .user) = false
    ∧ isPending (.pendingWithPrompt .system "x") = true
    ∧ isExited (.exited none) = true := by
  exact ⟨rfl, rfl, rfl, rfl, rfl⟩

/-- Fixture agent for the run entry point: no exports, scripted template. -/
def agRun : Agent where
  exports := []
  template := some tmplFix
  methods := fun _ => none

/-- Fixture run flags requesting `allow_exit = false`. -/
def rfRun : RunFlags :=
  { agent := agRun, prompts := {}, openai_key := "k", allow_exit := some false }

/-- Fixture model-client factory: every completion asks for
`builtins.exit("bye")`. -/
def mkModelRun : String → LLMFn := fun _ => fun _ => .ok "EXIT_BYE"

/-- C9: `run` does drive the controller to completion and return its
terminal output, but it constructs the controller without forwarding
`allow_exit`: even though the flags carry `allow_exit = false`, the
constructed controller's options are empty and the `builtins.exit`
declaration node is still added to the rendering scope -- contradicting
the documented meaning of the flag (and `makeController`, which does
forward it). -/
theorem c9_run_allow_exit_bug :
    rfRun.allow_exit = some false
    ∧ (runController rfRun mkModelRun).opts.allow_exit = none
    ∧ contextScope (runController rfRun mkModelRun) = [exitNode]
    ∧ run rfRun mkModelRun 1 = .ok (some (some (.vstr "bye"))) := by
  exact ⟨rfl, rfl, rfl, rfl⟩

/-- C10: at a tick entered with `retries ≥ max_retries`, any error thrown
by `complete` -- of every classification -- is re-raised unchanged before
the classification chain is examined, so such a tick neither returns a
Pending nor an Exited value. -/
theorem c10_exhaustion_preempts_classification (c : AgentController)
    (st : CtrlState) (p? : Option String) (r : Role) (e : Err)
    (hr : max_retries ≤ st.retries) (hc : complete c st p? r = .error e) :
    tick c st p? r = .error e :=
  tick_exhausted hr hc

/-- Witness for C10: even the non-recoverable Internal error of an unknown
builtin propagates unchanged at `retries = 7`. -/
theorem c10_exhaustion_preempts_classification_witness :
    tick cQuit ⟨[], 7⟩ none .user = .error (.internal "unknown builtin 'quit'") := by
  exact c10_exhaustion_preempts_classification cQuit ⟨[], 7⟩ none .user
    (.internal "unknown builtin 'quit'") (by decide) rfl

end Kotto
